import Mathlib

/-!
Shallow embedding of the cove-backend contract-verification route
(src/routes/verify.rs) together with the collaborator interfaces it
consumes (the provider and compile modules, which are not part of the
sources given here and are therefore modelled from the specification).

Conventions of the embedding:
* bytes (ethers Bytes) are lists of naturals, each below 256 in intent;
* an Address (H160) and a TxHash (H256) are naturals;
* every fallible collaborator call is an oracle field of `Env` / `GitEnv`,
  and a Rust `unwrap()` on a failed result, as well as the `todo!()` arm,
  is modelled as the distinguished outcome `Outcome.panic`;
* the HTTP responses `(StatusCode::BAD_REQUEST, msg)` built in verify.rs
  are modelled by `Outcome.failed` carrying the reason that identifies
  which of the three messages was produced;
* `verify` additionally returns the ordered list of collaborator actions
  it performed (creation-code fetch, repository clone, one entry per
  compiler invocation), so that claims about steps never being attempted
  are statable.
-/

set_option autoImplicit false

namespace Cove

/-- Modelled from the spec: the fixed, build-time-known set of supported
chains (section 3, ChainId). The provider module enumerating them is not
among the given sources; verify.rs itself only names Optimism. The other
members stand for the remaining supported networks. -/
inductive Chain where
  | mainnet
  | optimism
  | arbitrum
  | polygon
deriving DecidableEq, Repr

/-- The supported-chain set as an enumeration (spec section 3: keys of a
CreationCodeResultSet are exactly the supported chains). -/
def allChains : List Chain :=
  [Chain.mainnet, Chain.optimism, Chain.arbitrum, Chain.polygon]

/-- ethers BlockNumber: either a symbolic tag or a concrete number.
Only the concrete constructor yields a value under as_number. -/
inductive BlockNumber where
  | latest
  | earliest
  | pending
  | number (n : Nat)
deriving DecidableEq, Repr

/-- ethers BlockNumber.as_number: some only for a concrete number
(verify.rs:160 unwraps this). -/
def BlockNumber.as_number : BlockNumber → Option Nat
  | BlockNumber.number n => some n
  | _ => none

/-- ethers BlockId: a block referenced by number or by hash
(verify.rs:159-162 matches on this). -/
inductive BlockId where
  | number (n : BlockNumber)
  | hash (h : Nat)
deriving DecidableEq, Repr

/-- Modelled from the spec: the per-chain CreationRecord (section 3),
with the field names verify.rs reads at lines 158, 173 and 175. -/
structure CreationRecord where
  tx_hash : Nat
  block : BlockId
  creation_code : List Nat
deriving DecidableEq, Repr

/-- Modelled from the spec: CreationCodeResultSet (section 3), a total
mapping from supported chain to an optional creation record; the key-set
invariant makes a total function the exact representation. -/
def CreationCodeResultSet : Type := Chain → Option CreationRecord

/-- Modelled from the spec: the is_all_none check on a result set
(section 3), true when every supported chain has an absent record
(verify.rs:80 branches on it). -/
def is_all_none (s : CreationCodeResultSet) : Bool :=
  allChains.all fun c => (s c).isNone

/-- Modelled from the spec: one compiled artifact as the matcher sees it
(section 4.3): its identity is the artifact file path, and matching uses
its creation bytecode. -/
structure Artifact where
  path : String
  creation_code : List Nat
deriving DecidableEq, Repr

/-- Modelled from the spec: BytecodeMatcher.compare (section 4.3). For a
chain with a present creation record, the match is the first artifact
whose creation bytecode is byte-for-byte equal to the on-chain creation
bytecode; chains with an absent record never match
(verify.rs:119 calls this as provider.compare_creation_code). -/
def compare_creation_code (artifacts : List Artifact)
    (creation : CreationCodeResultSet) : Chain → Option String :=
  fun c =>
    match creation c with
    | none => none
    | some r =>
      (artifacts.find? fun a => a.creation_code == r.creation_code).map Artifact.path

/-- One enumerated build profile, as verify.rs observes it: whether the
compiler exit status was success (verify.rs:112), and the result of
parsing the artifact directory afterwards (verify.rs:118, none meaning
compile::get_artifacts returned an error). -/
structure BuildCmd where
  build_success : Bool
  artifacts : Option (List Artifact)
deriving DecidableEq, Repr

/-- VerifiedContractTable (spec section 3): chain to matched artifact
path, absent entries meaning no match yet (verify.rs:104 HashMap). -/
def VerifiedContractTable : Type := Chain → Option String

/-- The empty verified-contract table (verify.rs:104, HashMap::new). -/
def emptyTable : VerifiedContractTable := fun _ => none

/-- Insertion pass of verify.rs:128-133: every present entry of a match
result set overwrites the corresponding chain entry of the table; absent
entries leave the table entry unchanged. -/
def insertMatches (ms : Chain → Option String)
    (t : VerifiedContractTable) : VerifiedContractTable :=
  fun c =>
    match ms c with
    | some p => some p
    | none => t c

/-- HashMap::is_empty on the table (verify.rs:136): no chain has an
entry. -/
def tableIsEmpty (t : VerifiedContractTable) : Bool :=
  allChains.all fun c => (t c).isNone

/-- The build loop of verify.rs:106-134 over the enumerated build
commands. Returns the resulting table (none when the loop panics on the
get_artifacts unwrap at verify.rs:118) together with the number of
compiler invocations actually performed (verify.rs:111 runs the command
before the status check, so a failing profile still counts). A profile
with a non-success exit status is skipped (verify.rs:112-115); a profile
that builds and parses has its matches inserted, later entries
overwriting earlier ones (verify.rs:125-133). -/
def processBuilds (creation : CreationCodeResultSet) :
    List BuildCmd → VerifiedContractTable → Option VerifiedContractTable × Nat
  | [], t => (some t, 0)
  | cmd :: rest, t =>
    if cmd.build_success then
      match cmd.artifacts with
      | none => (none, 1)
      | some arts =>
        let r := processBuilds creation rest
          (insertMatches (compare_creation_code arts creation) t)
        (r.1, r.2 + 1)
    else
      let r := processBuilds creation rest t
      (r.1, r.2 + 1)

/-- The compiler sub-object of the forge artifact metadata
(verify.rs:316-318). -/
structure Compiler where
  version : String
deriving DecidableEq, Repr

/-- The slice of the forge artifact metadata that verify reads
(verify.rs:303-312): the compiler version and the source language. -/
structure Metadata where
  compiler : Compiler
  language : String
deriving DecidableEq, Repr

/-- The creation-bytecode object of a forge artifact (verify.rs:268-274);
only the source map is read when assembling the response. -/
structure Bytecode where
  object : String
  source_map : String
deriving DecidableEq, Repr

/-- The deployed-bytecode object of a forge artifact (verify.rs:280-286). -/
structure DeployedBytecode where
  object : String
  source_map : String
deriving DecidableEq, Repr

/-- The forge artifact document Root (verify.rs:226-237), restricted to
the fields verify reads when assembling the response; the ABI and AST
subtrees are carried opaquely as strings since verify copies them into
the response without inspecting them. -/
structure Root where
  abi : String
  bytecode : Bytecode
  deployed_bytecode : DeployedBytecode
  metadata : Metadata
  ast : String
deriving DecidableEq, Repr

/-- Outcomes of the git2 calls inside clone_repo_and_checkout_commit
(verify.rs:191-219), one oracle flag per fallible call. The branch flag
records whether repo.branch succeeded; the source binds that result but
discards its error (verify.rs:205, 215), so the flag does not steer
control flow, while a failed branch creation is the realistic way for
the subsequent revparse lookup to fail. -/
structure GitEnv where
  clone_ok : Bool
  oid_ok : Bool
  find_commit_ok : Bool
  branch_ok : Bool
  revparse_ok : Bool
  checkout_tree_ok : Bool
  set_head_ok : Bool
deriving DecidableEq, Repr

/-- clone_repo_and_checkout_commit (verify.rs:191-219). Result: some true
for Ok, some false for an error propagated with the question-mark
operator (Repository::clone at 197, Oid::from_str at 201, find_commit at
202, checkout_tree at 209, set_head at 211), and none for the panic on
the unwrapped revparse_single call at verify.rs:208. The repo.branch
result at 205 is dropped, so its failure does not produce an error
return. -/
def clone_repo_and_checkout_commit (g : GitEnv) : Option Bool :=
  if g.clone_ok = false then some false
  else if g.oid_ok = false then some false
  else if g.find_commit_ok = false then some false
  else if g.revparse_ok = false then none
  else if g.checkout_tree_ok = false then some false
  else if g.set_head_ok = false then some false
  else some true

/-- The collaborator oracle for one verification request: the provider
responses per address (get_creation_code, verify.rs:77, and
contract_runtime_code, verify.rs:176-180), the git outcomes, the
enumerated build commands (compile::build_commands, verify.rs:103, none
meaning the call returned an error and the unwrap panics), and the
filesystem read plus JSON parse of a chosen artifact file
(verify.rs:150-151, none meaning one of those unwraps panics). -/
structure Env where
  get_creation_code : Nat → CreationCodeResultSet
  git : GitEnv
  build_commands : Option (List BuildCmd)
  read_artifact : String → Option Root
  contract_runtime_code : Nat → List Nat

/-- The deserialized request body VerifyData (verify.rs:23-28); axum
rejects bodies with missing fields before verify runs, so all three
fields are present here. -/
structure VerifyData where
  repo_url : String
  repo_commit : String
  contract_address : String
deriving DecidableEq, Repr

/-- Value of one hexadecimal digit character, none for any other
character. -/
def hexDigitVal (c : Char) : Option Nat :=
  if ('0' ≤ c ∧ c ≤ '9') then some (c.toNat - ('0').toNat)
  else if ('a' ≤ c ∧ c ≤ 'f') then some (c.toNat - ('a').toNat + 10)
  else if ('A' ≤ c ∧ c ≤ 'F') then some (c.toNat - ('A').toNat + 10)
  else none

/-- ethers Address::from_str (an H160 parse, verify.rs:69): an optional
0x marker followed by exactly forty hexadecimal digits; anything else is
a parse error, which verify unwraps. -/
def parseAddress (s : String) : Option Nat :=
  let body :=
    match s.toList with
    | '0' :: 'x' :: rest => rest
    | cs => cs
  if body.length == 40 && body.all (fun c => (hexDigitVal c).isSome) then
    some (body.foldl (fun acc c => acc * 16 + (hexDigitVal c).getD 0) 0)
  else none

/-- The compiler_info object of the response (verify.rs:30-37,
153-156). -/
structure CompilerInfo where
  name : String
  version : String
deriving DecidableEq, Repr

/-- The success payload SuccessfulVerification (verify.rs:39-55). The
chains field is the set of matched chains listed in the fixed
supported-chain enumeration order (the source collects HashMap keys,
whose order is unspecified). -/
structure SuccessfulVerification where
  repo_url : String
  repo_commit : String
  contract_address : Nat
  chains : List Chain
  chain : Chain
  creation_tx_hash : Nat
  creation_block_number : Nat
  creation_code : List Nat
  runtime_code : List Nat
  creation_code_source_map : String
  runtime_code_source_map : String
  abi : String
  compiler_info : CompilerInfo
  ast : String
deriving DecidableEq, Repr

/-- The three BAD_REQUEST responses verify can return, identified by the
reason (verify.rs:83, 96, 137). -/
inductive Reason where
  | NoCreationCode
  | CloneFailed
  | NoMatchingContract
deriving DecidableEq, Repr

/-- Observable outcome of one request to verify: a Rust panic (an
unwrap on a failed result or the todo arm), a BAD_REQUEST response, or
the OK response with its payload. -/
inductive Outcome where
  | panic
  | failed (reason : Reason)
  | success (resp : SuccessfulVerification)
deriving DecidableEq, Repr

/-- The response-assembly tail of verify (verify.rs:140-188), reached
with a non-empty table: look up the hardcoded Optimism entry (unwrap at
149), re-read and re-parse the chosen artifact file (unwraps at
150-151), look up the Optimism creation record (unwraps at 158 and
164-165), extract a concrete block number (todo arm at 161, unwrap at
160), then assemble SuccessfulVerification. -/
def respond (env : Env) (input : VerifyData) (contract_addr : Nat)
    (t : VerifiedContractTable) : Outcome :=
  match t Chain.optimism with
  | none => Outcome.panic
  | some artifact_path =>
    match env.read_artifact artifact_path with
    | none => Outcome.panic
    | some artifact =>
      match env.get_creation_code contract_addr Chain.optimism with
      | none => Outcome.panic
      | some sel =>
        match sel.block with
        | BlockId.hash _ => Outcome.panic
        | BlockId.number bn =>
          match bn.as_number with
          | none => Outcome.panic
          | some block_num =>
            Outcome.success
              { repo_url := input.repo_url
                repo_commit := input.repo_commit
                contract_address := contract_addr
                chains := allChains.filter fun c => (t c).isSome
                chain := Chain.optimism
                creation_tx_hash := sel.tx_hash
                creation_block_number := block_num
                creation_code := sel.creation_code
                runtime_code := env.contract_runtime_code contract_addr
                creation_code_source_map := artifact.bytecode.source_map
                runtime_code_source_map := artifact.deployed_bytecode.source_map
                abi := artifact.abi
                compiler_info :=
                  { name := artifact.metadata.language
                    version := artifact.metadata.compiler.version }
                ast := artifact.ast }

/-- The collaborator actions verify can perform, in the order it
performs them, used to state that a step was never attempted. -/
inductive Action where
  | fetch_creation_code
  | clone_repo
  | run_build
deriving DecidableEq, Repr

/-- The build stage of verify (verify.rs:103-134): unwrap the enumerated
build commands (none means the unwrap at 103 panics before any build
runs) and fold the build loop over them starting from the empty
table. -/
def buildsStage (env : Env) (creation : CreationCodeResultSet) :
    Option VerifiedContractTable × Nat :=
  match env.build_commands with
  | none => (none, 0)
  | some cmds => processBuilds creation cmds emptyTable

/-- The verify route handler (verify.rs:66-189): parse the address
(unwrap at 69), fetch creation code on all chains (77), stop with
NoCreationCode when every chain is absent (80-84), clone and check out
(93-98, CloneFailed on error), run the build loop (103-134), answer
NoMatchingContract on an empty table (136-138), and otherwise assemble
the response (140-188). The second component is the trace of
collaborator actions performed, one run_build entry per compiler
invocation. -/
def verify (env : Env) (input : VerifyData) : Outcome × List Action :=
  match parseAddress input.contract_address with
  | none => (Outcome.panic, [])
  | some contract_addr =>
    let creation := env.get_creation_code contract_addr
    if is_all_none creation then
      (Outcome.failed Reason.NoCreationCode, [Action.fetch_creation_code])
    else
      match clone_repo_and_checkout_commit env.git with
      | none =>
        (Outcome.panic, [Action.fetch_creation_code, Action.clone_repo])
      | some false =>
        (Outcome.failed Reason.CloneFailed,
          [Action.fetch_creation_code, Action.clone_repo])
      | some true =>
        let r := buildsStage env creation
        let trace := Action.fetch_creation_code :: Action.clone_repo ::
          List.replicate r.2 Action.run_build
        match r.1 with
        | none => (Outcome.panic, trace)
        | some t =>
          if tableIsEmpty t then (Outcome.failed Reason.NoMatchingContract, trace)
          else (respond env input contract_addr t, trace)

/-- The table verify holds when it reaches the selecting step
(verify.rs:136): defined exactly when the run gets past fetching,
cloning and the build loop without a panic or an early error return. -/
def finalTable (env : Env) (input : VerifyData) :
    Option VerifiedContractTable :=
  match parseAddress input.contract_address with
  | none => none
  | some contract_addr =>
    if is_all_none (env.get_creation_code contract_addr) then none
    else
      match clone_repo_and_checkout_commit env.git with
      | some true => (buildsStage env (env.get_creation_code contract_addr)).1
      | _ => none

/-! Concrete fixtures used to evaluate the embedding on closed inputs. -/

/-- An artifact file path as forge lays out the out directory. -/
def counterPath : String := "out/Counter.sol/Counter.json"

/-- A second artifact path, distinct from counterPath. -/
def altPath : String := "out/Counter.sol/CounterAlt.json"

/-- A third artifact path, distinct from the other two. -/
def otherPath : String := "out/Other.sol/Other.json"

/-- A well-formed request address string (0x marker plus forty hex
digits), whose parsed value is 2748. -/
def addrStr : String := "0x0000000000000000000000000000000000000abc"

/-- A creation record on Optimism with a concrete block number. -/
def recOpt : CreationRecord :=
  { tx_hash := 7
    block := BlockId.number (BlockNumber.number 12)
    creation_code := [96, 128, 96, 64] }

/-- A creation record on mainnet with a concrete block number and a
different creation bytecode. -/
def recMain : CreationRecord :=
  { tx_hash := 9
    block := BlockId.number (BlockNumber.number 5)
    creation_code := [1, 2, 3] }

/-- A creation record whose block is identified by hash rather than by
number. -/
def recHash : CreationRecord :=
  { tx_hash := 11
    block := BlockId.hash 77
    creation_code := [5, 6, 7] }

/-- A git environment in which every call succeeds. -/
def gitOk : GitEnv :=
  { clone_ok := true
    oid_ok := true
    find_commit_ok := true
    branch_ok := true
    revparse_ok := true
    checkout_tree_ok := true
    set_head_ok := true }

/-- A git environment in which branch creation fails (its error is
discarded by the source) and the subsequent revparse lookup of the
never-created ref therefore fails as well. -/
def gitRevparseFail : GitEnv :=
  { gitOk with branch_ok := false, revparse_ok := false }

/-- A git environment in which the clone itself fails. -/
def gitCloneFail : GitEnv :=
  { gitOk with clone_ok := false }

/-- A parsed forge artifact document. -/
def rootDoc : Root :=
  { abi := "[]"
    bytecode := { object := "6080", source_map := "creation-map" }
    deployed_bytecode := { object := "6080", source_map := "runtime-map" }
    metadata := { compiler := { version := "0.8.17" }, language := "Solidity" }
    ast := "ast-root" }

/-- One artifact whose creation bytecode equals the Optimism record. -/
def artsOk : List Artifact :=
  [{ path := counterPath, creation_code := [96, 128, 96, 64] }]

/-- One artifact whose creation bytecode equals the mainnet record. -/
def artsMain : List Artifact :=
  [{ path := otherPath, creation_code := [1, 2, 3] }]

/-- One artifact whose creation bytecode equals the hash-block record. -/
def artsHash : List Artifact :=
  [{ path := counterPath, creation_code := [5, 6, 7] }]

/-- Creation results present on Optimism only. -/
def creationOptOnly : CreationCodeResultSet := fun c =>
  match c with
  | Chain.optimism => some recOpt
  | _ => none

/-- Creation results present on mainnet only. -/
def creationMainOnly : CreationCodeResultSet := fun c =>
  match c with
  | Chain.mainnet => some recMain
  | _ => none

/-- Creation results present on Optimism only, with a hash block id. -/
def creationHashOnly : CreationCodeResultSet := fun c =>
  match c with
  | Chain.optimism => some recHash
  | _ => none

/-- Creation results present on mainnet and Optimism. -/
def creationTwo : CreationCodeResultSet := fun c =>
  match c with
  | Chain.mainnet => some recMain
  | Chain.optimism => some recOpt
  | _ => none

/-- First synthetic profile artifact set: matches both mainnet and
Optimism. -/
def artsFirst : List Artifact :=
  [{ path := otherPath, creation_code := [1, 2, 3] },
   { path := counterPath, creation_code := [96, 128, 96, 64] }]

/-- Second synthetic profile artifact set: matches mainnet only, under a
different artifact path than the first profile. -/
def artsSecond : List Artifact :=
  [{ path := altPath, creation_code := [1, 2, 3] }]

/-- Environment for a fully successful verification on Optimism. -/
def envOk : Env :=
  { get_creation_code := fun _ => creationOptOnly
    git := gitOk
    build_commands := some [{ build_success := true, artifacts := some artsOk }]
    read_artifact := fun p => if p == counterPath then some rootDoc else none
    contract_runtime_code := fun _ => [254, 1] }

/-- Environment whose only match is on mainnet: the table ends non-empty
but has no Optimism entry. -/
def envNoOptimism : Env :=
  { get_creation_code := fun _ => creationMainOnly
    git := gitOk
    build_commands := some [{ build_success := true, artifacts := some artsMain }]
    read_artifact := fun _ => some rootDoc
    contract_runtime_code := fun _ => [] }

/-- Environment with two profiles: the first builds but its artifact
output fails to parse, the second would build, parse and match. -/
def envParseFail : Env :=
  { get_creation_code := fun _ => creationOptOnly
    git := gitOk
    build_commands := some
      [{ build_success := true, artifacts := none },
       { build_success := true, artifacts := some artsOk }]
    read_artifact := fun p => if p == counterPath then some rootDoc else none
    contract_runtime_code := fun _ => [254, 1] }

/-- Environment in which no chain has a creation record. -/
def envNoCode : Env :=
  { get_creation_code := fun _ => fun _ => none
    git := gitOk
    build_commands := some []
    read_artifact := fun _ => none
    contract_runtime_code := fun _ => [] }

/-- Environment in which every build profile fails to compile. -/
def envAllBuildsFail : Env :=
  { get_creation_code := fun _ => creationOptOnly
    git := gitOk
    build_commands := some
      [{ build_success := false, artifacts := none },
       { build_success := false, artifacts := some artsOk }]
    read_artifact := fun _ => none
    contract_runtime_code := fun _ => [] }

/-- Environment in which the checkout fails inside the branch-ref
lookup. -/
def envRevparse : Env :=
  { get_creation_code := fun _ => creationOptOnly
    git := gitRevparseFail
    build_commands := some [{ build_success := true, artifacts := some artsOk }]
    read_artifact := fun _ => some rootDoc
    contract_runtime_code := fun _ => [] }

/-- Environment in which the repository clone fails. -/
def envCloneFail : Env :=
  { get_creation_code := fun _ => creationOptOnly
    git := gitCloneFail
    build_commands := some [{ build_success := true, artifacts := some artsOk }]
    read_artifact := fun _ => some rootDoc
    contract_runtime_code := fun _ => [] }

/-- Environment whose Optimism creation record has a hash block id and
whose single profile matches it. -/
def envHashBlock : Env :=
  { get_creation_code := fun _ => creationHashOnly
    git := gitOk
    build_commands := some [{ build_success := true, artifacts := some artsHash }]
    read_artifact := fun p => if p == counterPath then some rootDoc else none
    contract_runtime_code := fun _ => [] }

/-- A request body with a well-formed address. -/
def inputOk : VerifyData :=
  { repo_url := "https://github.com/example/repo"
    repo_commit := "0123456789abcdef0123456789abcdef01234567"
    contract_address := addrStr }

/-- A request body whose address field is present but not parseable hex. -/
def inputBadAddr : VerifyData :=
  { inputOk with contract_address := "0x12zz" }

/-- The table the successful environment reaches at the selecting step. -/
def tOk : VerifiedContractTable :=
  insertMatches (compare_creation_code artsOk creationOptOnly) emptyTable

/-- The table the hash-block environment reaches at the selecting step. -/
def tHash : VerifiedContractTable :=
  insertMatches (compare_creation_code artsHash creationHashOnly) emptyTable

/-! Shared lemmas about the pipeline. -/

/-- A run that reaches the selecting step with table t answers
NoMatchingContract on an empty table and otherwise hands t to the
response-assembly tail. -/
theorem verify_fst_of_finalTable (env : Env) (input : VerifyData) (addr : Nat)
    (t : VerifiedContractTable)
    (hp : parseAddress input.contract_address = some addr)
    (ht : finalTable env input = some t) :
    (verify env input).1 =
      if tableIsEmpty t then Outcome.failed Reason.NoMatchingContract
      else respond env input addr t := by
  simp only [finalTable, hp] at ht
  simp only [verify, hp]
  cases hn : is_all_none (env.get_creation_code addr) with
  | true => rw [hn] at ht; simp at ht
  | false =>
    rw [hn] at ht
    simp only [Bool.false_eq_true, if_false] at ht ⊢
    cases hc : clone_repo_and_checkout_commit env.git with
    | none => rw [hc] at ht; simp at ht
    | some b =>
      cases b with
      | false => rw [hc] at ht; simp at ht
      | true =>
        rw [hc] at ht
        simp only [hc]
        cases hb : (buildsStage env (env.get_creation_code addr)).1 with
        | none => rw [hb] at ht; simp at ht
        | some t2 =>
          rw [hb] at ht
          cases ht
          simp only [hb]
          cases tableIsEmpty t <;> simp

/-- A table with an Optimism entry is not empty. -/
theorem tableIsEmpty_eq_false_of_optimism (t : VerifiedContractTable)
    (p : String) (hop : t Chain.optimism = some p) :
    tableIsEmpty t = false := by
  simp [tableIsEmpty, allChains, hop]

/-- C3: when the creation-code fetch comes back absent on every
supported chain, verify terminates with the NoCreationCode BAD_REQUEST
response and its action trace contains only the fetch: the clone and
every build profile are never attempted. -/
theorem no_creation_code_is_hard_stop (env : Env) (input : VerifyData)
    (addr : Nat)
    (hp : parseAddress input.contract_address = some addr)
    (ha : is_all_none (env.get_creation_code addr) = true) :
    verify env input =
      (Outcome.failed Reason.NoCreationCode, [Action.fetch_creation_code]) := by
  simp [verify, hp, ha]

/-- C3 witness: the concrete all-absent environment at the concrete
address 2748. -/
theorem no_creation_code_is_hard_stop_witness :
    parseAddress inputOk.contract_address = some 2748 ∧
    is_all_none (envNoCode.get_creation_code 2748) = true ∧
    verify envNoCode inputOk =
      (Outcome.failed Reason.NoCreationCode, [Action.fetch_creation_code]) :=
  ⟨by decide, by decide,
    no_creation_code_is_hard_stop envNoCode inputOk 2748 (by decide) (by decide)⟩

/-- C6: a run that reaches the selecting step with an empty verified
table, whatever per-profile failures produced it, answers the
NoMatchingContract BAD_REQUEST response rather than any build-level
error. -/
theorem empty_table_yields_no_matching_contract (env : Env)
    (input : VerifyData) (addr : Nat) (t : VerifiedContractTable)
    (hp : parseAddress input.contract_address = some addr)
    (ht : finalTable env input = some t)
    (he : tableIsEmpty t = true) :
    (verify env input).1 = Outcome.failed Reason.NoMatchingContract := by
  have h := verify_fst_of_finalTable env input addr t hp ht
  rw [he] at h
  simpa using h

/-- C6 witness: both profiles fail to compile, the table stays empty,
and the outcome is NoMatchingContract. -/
theorem empty_table_yields_no_matching_contract_witness :
    tableIsEmpty emptyTable = true ∧
    (verify envAllBuildsFail inputOk).1 =
      Outcome.failed Reason.NoMatchingContract :=
  ⟨by decide,
    empty_table_yields_no_matching_contract envAllBuildsFail inputOk 2748
      emptyTable (by decide) rfl (by decide)⟩

/-- C7 (amended): every clone or checkout failure that
clone_repo_and_checkout_commit reports through its error return (clone,
commit-id parse, commit lookup, checkout-tree, set-head) yields the
CloneFailed BAD_REQUEST response with no build profile run; but when the
branch-ref lookup (revparse_single, unwrapped at verify.rs:208 after the
branch-creation result was discarded) fails, verify panics instead of
returning CloneFailed, still with no build profile run. -/
theorem clone_checkout_error_yields_clone_failed (env : Env)
    (input : VerifyData) (addr : Nat)
    (hp : parseAddress input.contract_address = some addr)
    (hn : is_all_none (env.get_creation_code addr) = false) :
    (clone_repo_and_checkout_commit env.git = some false →
      verify env input =
        (Outcome.failed Reason.CloneFailed,
          [Action.fetch_creation_code, Action.clone_repo])) ∧
    (clone_repo_and_checkout_commit env.git = none →
      verify env input =
        (Outcome.panic, [Action.fetch_creation_code, Action.clone_repo])) := by
  constructor <;> intro hc <;> simp [verify, hp, hn, hc]

/-- C7 witness: the concrete failing-clone environment takes the
CloneFailed branch with no build in the trace. -/
theorem clone_checkout_error_yields_clone_failed_witness :
    (clone_repo_and_checkout_commit envCloneFail.git = some false →
      verify envCloneFail inputOk =
        (Outcome.failed Reason.CloneFailed,
          [Action.fetch_creation_code, Action.clone_repo])) ∧
    (clone_repo_and_checkout_commit envCloneFail.git = none →
      verify envCloneFail inputOk =
        (Outcome.panic, [Action.fetch_creation_code, Action.clone_repo])) :=
  clone_checkout_error_yields_clone_failed envCloneFail inputOk 2748
    (by decide) (by decide)

/-- C7 counterexample: a checkout failure inside the branch-ref lookup
(branch creation failed with its error discarded, then the unwrapped
revparse_single failed) makes verify panic rather than produce the
CloneFailed response, refuting the claim that every clone or checkout
failure terminates in CloneFailed. -/
theorem checkout_revparse_failure_panics :
    verify envRevparse inputOk =
      (Outcome.panic, [Action.fetch_creation_code, Action.clone_repo]) := by
  decide

/-- C8: a profile whose compiler invocation exits with a non-success
status is skipped: the build loop over that profile followed by the rest
produces exactly the table and panic behavior of the rest alone, with
one more compiler invocation counted, so a failing profile never aborts
the request. -/
theorem build_failure_is_skipped (creation : CreationCodeResultSet)
    (cmd : BuildCmd) (rest : List BuildCmd) (t : VerifiedContractTable)
    (h : cmd.build_success = false) :
    processBuilds creation (cmd :: rest) t =
      ((processBuilds creation rest t).1,
        (processBuilds creation rest t).2 + 1) := by
  simp [processBuilds, h]

/-- C8 witness: a concrete failing profile followed by a succeeding one
reduces to processing the succeeding one alone. -/
theorem build_failure_is_skipped_witness :
    ({ build_success := false, artifacts := none } : BuildCmd).build_success
        = false ∧
    processBuilds creationOptOnly
        [{ build_success := false, artifacts := none },
         { build_success := true, artifacts := some artsOk }] emptyTable =
      ((processBuilds creationOptOnly
          [{ build_success := true, artifacts := some artsOk }] emptyTable).1,
        (processBuilds creationOptOnly
          [{ build_success := true, artifacts := some artsOk }] emptyTable).2
          + 1) :=
  ⟨rfl,
    build_failure_is_skipped creationOptOnly
      { build_success := false, artifacts := none }
      [{ build_success := true, artifacts := some artsOk }] emptyTable rfl⟩

/-- C10: a request whose contract_address field is present but not a
parseable hex address makes verify panic on the address unwrap, with an
empty action trace: no chain fetch, no clone and no build happened. -/
theorem malformed_address_panics_before_any_action (env : Env)
    (input : VerifyData)
    (h : parseAddress input.contract_address = none) :
    verify env input = (Outcome.panic, []) := by
  simp [verify, h]

/-- C10 witness: the concrete malformed address 0x12zz. -/
theorem malformed_address_panics_before_any_action_witness :
    parseAddress inputBadAddr.contract_address = none ∧
    verify envOk inputBadAddr = (Outcome.panic, []) :=
  ⟨by decide,
    malformed_address_panics_before_any_action envOk inputBadAddr (by decide)⟩

/-- C2: evaluating verify on a profile that compiles but whose artifact
output fails to parse: the get_artifacts unwrap at verify.rs:118 panics,
the request dies, and the second (perfectly good) profile never runs —
only one run_build action is in the trace — contradicting the
skip-and-continue treatment the specification requires for artifact
parse failures. -/
theorem artifact_parse_failure_is_request_fatal :
    verify envParseFail inputOk =
      (Outcome.panic,
        [Action.fetch_creation_code, Action.clone_repo, Action.run_build]) := by
  decide

/-- C5: when two successive profiles both produce a match for the same
chain, the table after processing both holds the later profile's
artifact identifier for that chain, while chains matched only by the
earlier profile keep their earlier entries. -/
theorem later_profile_overwrites (creation : CreationCodeResultSet)
    (cmd1 cmd2 : BuildCmd) (arts1 arts2 : List Artifact)
    (t0 : VerifiedContractTable) (c : Chain) (p1 p2 : String)
    (h1s : cmd1.build_success = true) (h1a : cmd1.artifacts = some arts1)
    (h2s : cmd2.build_success = true) (h2a : cmd2.artifacts = some arts2)
    (_hm1 : compare_creation_code arts1 creation c = some p1)
    (hm2 : compare_creation_code arts2 creation c = some p2) :
    ∃ t : VerifiedContractTable,
      processBuilds creation [cmd1, cmd2] t0 = (some t, 2) ∧
      t c = some p2 ∧
      ∀ c2 q, compare_creation_code arts2 creation c2 = none →
        compare_creation_code arts1 creation c2 = some q →
        t c2 = some q := by
  refine ⟨insertMatches (compare_creation_code arts2 creation)
    (insertMatches (compare_creation_code arts1 creation) t0), ?_, ?_, ?_⟩
  · simp [processBuilds, h1s, h1a, h2s, h2a]
  · simp [insertMatches, hm2]
  · intro c2 q h2n h1q
    simp [insertMatches, h2n, h1q]

/-- C5 witness: two concrete profiles both matching mainnet under
different artifact paths; the later path wins on mainnet and the
Optimism entry written only by the first profile survives. -/
theorem later_profile_overwrites_witness :
    compare_creation_code artsFirst creationTwo Chain.mainnet
        = some otherPath ∧
    compare_creation_code artsSecond creationTwo Chain.mainnet
        = some altPath ∧
    ∃ t : VerifiedContractTable,
      processBuilds creationTwo
          [{ build_success := true, artifacts := some artsFirst },
           { build_success := true, artifacts := some artsSecond }]
          emptyTable = (some t, 2) ∧
      t Chain.mainnet = some altPath ∧
      ∀ c2 q, compare_creation_code artsSecond creationTwo c2 = none →
        compare_creation_code artsFirst creationTwo c2 = some q →
        t c2 = some q :=
  ⟨by decide, by decide,
    later_profile_overwrites creationTwo
      { build_success := true, artifacts := some artsFirst }
      { build_success := true, artifacts := some artsSecond }
      artsFirst artsSecond emptyTable Chain.mainnet otherPath altPath
      rfl rfl rfl rfl (by decide) (by decide)⟩

/-- C1 counterexample: an environment whose only match is on mainnet
reaches the selecting step with a non-empty table, yet verify panics on
the hardcoded Optimism lookup instead of producing a successful response
for some representative, refuting the claim that selection never fails
on a non-empty table. -/
theorem nonempty_table_without_optimism_panics :
    (verify envNoOptimism inputOk).1 = Outcome.panic ∧
    (finalTable envNoOptimism inputOk).map tableIsEmpty = some false := by
  constructor <;> decide

/-- C1 (amended): the representative chain is the single hardcoded
favored chain Optimism, independent of match recency: on a non-empty
table, verify panics when Optimism is not among the matched chains, and
any successful response carries Optimism as its chain with the
single-chain fields drawn from the Optimism creation record. -/
theorem representative_is_hardcoded_optimism (env : Env)
    (input : VerifyData) (addr : Nat) (t : VerifiedContractTable)
    (hp : parseAddress input.contract_address = some addr)
    (ht : finalTable env input = some t)
    (hne : tableIsEmpty t = false) :
    (t Chain.optimism = none → (verify env input).1 = Outcome.panic) ∧
    (∀ r : SuccessfulVerification,
      (verify env input).1 = Outcome.success r →
      r.chain = Chain.optimism ∧
      ∃ sel : CreationRecord,
        env.get_creation_code addr Chain.optimism = some sel ∧
        r.creation_tx_hash = sel.tx_hash ∧
        r.creation_code = sel.creation_code) := by
  have hmain := verify_fst_of_finalTable env input addr t hp ht
  rw [hne] at hmain
  simp only [Bool.false_eq_true, if_false] at hmain
  constructor
  · intro hop
    rw [hmain]
    simp [respond, hop]
  · intro r hr
    rw [hmain] at hr
    simp only [respond] at hr
    cases hop : t Chain.optimism with
    | none => simp only [hop] at hr; exact Outcome.noConfusion hr
    | some p =>
      simp only [hop] at hr
      cases hra : env.read_artifact p with
      | none => simp only [hra] at hr; exact Outcome.noConfusion hr
      | some artifact =>
        simp only [hra] at hr
        cases hsel : env.get_creation_code addr Chain.optimism with
        | none => simp only [hsel] at hr; exact Outcome.noConfusion hr
        | some sel =>
          simp only [hsel] at hr
          cases hbl : sel.block with
          | hash hs => simp only [hbl] at hr; exact Outcome.noConfusion hr
          | number bn =>
            simp only [hbl] at hr
            cases hnum : bn.as_number with
            | none => simp only [hnum] at hr; exact Outcome.noConfusion hr
            | some block_num =>
              simp only [hnum] at hr
              cases hr
              exact ⟨rfl, sel, rfl, rfl, rfl⟩

/-- C1 (amended) witness: the concrete successful environment, whose
table holds Optimism, instantiates the amended selection property. -/
theorem representative_is_hardcoded_optimism_witness :
    (tOk Chain.optimism = none →
      (verify envOk inputOk).1 = Outcome.panic) ∧
    (∀ r : SuccessfulVerification,
      (verify envOk inputOk).1 = Outcome.success r →
      r.chain = Chain.optimism ∧
      ∃ sel : CreationRecord,
        envOk.get_creation_code 2748 Chain.optimism = some sel ∧
        r.creation_tx_hash = sel.tx_hash ∧
        r.creation_code = sel.creation_code) :=
  representative_is_hardcoded_optimism envOk inputOk 2748 tOk
    (by decide) rfl (by decide)

/-- C4: every successful response carries, byte for byte, the creation
bytecode of the creation record fetched for the selected representative
chain (Optimism) during the fetching step. -/
theorem creation_code_round_trip (env : Env) (input : VerifyData)
    (r : SuccessfulVerification)
    (h : (verify env input).1 = Outcome.success r) :
    ∃ addr sel, parseAddress input.contract_address = some addr ∧
      env.get_creation_code addr Chain.optimism = some sel ∧
      r.chain = Chain.optimism ∧
      r.creation_code = sel.creation_code := by
  cases hp : parseAddress input.contract_address with
  | none => simp [verify, hp] at h
  | some addr =>
    refine ⟨addr, ?_⟩
    simp only [verify, hp] at h
    cases hn : is_all_none (env.get_creation_code addr) with
    | true => simp [hn] at h
    | false =>
      simp only [hn, Bool.false_eq_true, if_false] at h
      cases hc : clone_repo_and_checkout_commit env.git with
      | none => simp [hc] at h
      | some b =>
        cases b with
        | false => simp [hc] at h
        | true =>
          simp only [hc] at h
          cases hb : (buildsStage env (env.get_creation_code addr)).1 with
          | none => simp [hb] at h
          | some t =>
            simp only [hb] at h
            cases he : tableIsEmpty t with
            | true => simp [he] at h
            | false =>
              simp only [he, Bool.false_eq_true, if_false] at h
              simp only [respond] at h
              cases hop : t Chain.optimism with
              | none => simp only [hop] at h; exact Outcome.noConfusion h
              | some p =>
                simp only [hop] at h
                cases hra : env.read_artifact p with
                | none => simp only [hra] at h; exact Outcome.noConfusion h
                | some artifact =>
                  simp only [hra] at h
                  cases hsel : env.get_creation_code addr Chain.optimism with
                  | none => simp only [hsel] at h; exact Outcome.noConfusion h
                  | some sel =>
                    simp only [hsel] at h
                    cases hbl : sel.block with
                    | hash hs =>
                      simp only [hbl] at h; exact Outcome.noConfusion h
                    | number bn =>
                      simp only [hbl] at h
                      cases hnum : bn.as_number with
                      | none =>
                        simp only [hnum] at h; exact Outcome.noConfusion h
                      | some block_num =>
                        simp only [hnum] at h
                        cases h
                        exact ⟨sel, rfl, rfl, rfl, rfl⟩

/-- C4 witness: the concrete successful run returns the Optimism record
creation bytecode unchanged. -/
theorem creation_code_round_trip_witness :
    (verify envOk inputOk).1 = Outcome.success
      { repo_url := inputOk.repo_url
        repo_commit := inputOk.repo_commit
        contract_address := 2748
        chains := [Chain.optimism]
        chain := Chain.optimism
        creation_tx_hash := 7
        creation_block_number := 12
        creation_code := [96, 128, 96, 64]
        runtime_code := [254, 1]
        creation_code_source_map := rootDoc.bytecode.source_map
        runtime_code_source_map := rootDoc.deployed_bytecode.source_map
        abi := rootDoc.abi
        compiler_info :=
          { name := rootDoc.metadata.language
            version := rootDoc.metadata.compiler.version }
        ast := rootDoc.ast } ∧
    ∃ addr sel, parseAddress inputOk.contract_address = some addr ∧
      envOk.get_creation_code addr Chain.optimism = some sel ∧
      ({ repo_url := inputOk.repo_url
         repo_commit := inputOk.repo_commit
         contract_address := 2748
         chains := [Chain.optimism]
         chain := Chain.optimism
         creation_tx_hash := 7
         creation_block_number := 12
         creation_code := [96, 128, 96, 64]
         runtime_code := [254, 1]
         creation_code_source_map := rootDoc.bytecode.source_map
         runtime_code_source_map := rootDoc.deployed_bytecode.source_map
         abi := rootDoc.abi
         compiler_info :=
           { name := rootDoc.metadata.language
             version := rootDoc.metadata.compiler.version }
         ast := rootDoc.ast } : SuccessfulVerification).chain
          = Chain.optimism ∧
      ({ repo_url := inputOk.repo_url
         repo_commit := inputOk.repo_commit
         contract_address := 2748
         chains := [Chain.optimism]
         chain := Chain.optimism
         creation_tx_hash := 7
         creation_block_number := 12
         creation_code := [96, 128, 96, 64]
         runtime_code := [254, 1]
         creation_code_source_map := rootDoc.bytecode.source_map
         runtime_code_source_map := rootDoc.deployed_bytecode.source_map
         abi := rootDoc.abi
         compiler_info :=
           { name := rootDoc.metadata.language
             version := rootDoc.metadata.compiler.version }
         ast := rootDoc.ast } : SuccessfulVerification).creation_code
          = sel.creation_code :=
  ⟨by decide,
    creation_code_round_trip envOk inputOk _ (by decide)⟩

/-- C9: a run that reaches the response-assembly step with a creation
record for Optimism whose block identifier is a block hash panics on the
todo arm, and every successful response requires that identifier to be a
concrete block number, which becomes the response block number. -/
theorem block_hash_record_panics (env : Env) (input : VerifyData)
    (addr : Nat) (t : VerifiedContractTable) (p : String)
    (sel : CreationRecord)
    (hp : parseAddress input.contract_address = some addr)
    (ht : finalTable env input = some t)
    (hop : t Chain.optimism = some p)
    (hsel : env.get_creation_code addr Chain.optimism = some sel) :
    ((∃ hs, sel.block = BlockId.hash hs) →
      (verify env input).1 = Outcome.panic) ∧
    (∀ r : SuccessfulVerification,
      (verify env input).1 = Outcome.success r →
      ∃ n, sel.block = BlockId.number (BlockNumber.number n) ∧
        r.creation_block_number = n) := by
  have hne := tableIsEmpty_eq_false_of_optimism t p hop
  have hmain := verify_fst_of_finalTable env input addr t hp ht
  rw [hne] at hmain
  simp only [Bool.false_eq_true, if_false] at hmain
  rw [hmain]
  constructor
  · rintro ⟨hs, hbl⟩
    simp only [respond, hop]
    cases hra : env.read_artifact p with
    | none => rfl
    | some artifact => simp [hsel, hbl]
  · intro r hr
    simp only [respond, hop] at hr
    cases hra : env.read_artifact p with
    | none => simp only [hra] at hr; exact Outcome.noConfusion hr
    | some artifact =>
      simp only [hra, hsel] at hr
      cases hbl : sel.block with
      | hash hs => simp only [hbl] at hr; exact Outcome.noConfusion hr
      | number bn =>
        simp only [hbl] at hr
        cases hnum : bn.as_number with
        | none => simp only [hnum] at hr; exact Outcome.noConfusion hr
        | some block_num =>
          simp only [hnum] at hr
          cases hr
          cases bn with
          | latest => simp [BlockNumber.as_number] at hnum
          | earliest => simp [BlockNumber.as_number] at hnum
          | pending => simp [BlockNumber.as_number] at hnum
          | number m =>
            simp only [BlockNumber.as_number, Option.some.injEq] at hnum
            subst hnum
            exact ⟨m, rfl, rfl⟩

/-- C9 witness: the concrete environment whose Optimism record carries a
hash block identifier instantiates the panic half of the property. -/
theorem block_hash_record_panics_witness :
    ((∃ hs, recHash.block = BlockId.hash hs) →
      (verify envHashBlock inputOk).1 = Outcome.panic) ∧
    (∀ r : SuccessfulVerification,
      (verify envHashBlock inputOk).1 = Outcome.success r →
      ∃ n, recHash.block = BlockId.number (BlockNumber.number n) ∧
        r.creation_block_number = n) :=
  block_hash_record_panics envHashBlock inputOk 2748 tHash counterPath
    recHash (by decide) rfl (by decide) (by decide)

end Cove
